import Mathlib

/-!
Verification of the paymentd authorization subsystem.

The Go sources embedded here:
- `pkg/service/api/v1/auth.go` : `authenticateBasicAuth`, `authenticateSystemPassword`,
  `respondWithAuthorization`, `AuthHandler`, `AuthRequiredHandler`.
- `pkg/service/provider/fritzpay/init.go` : `Driver.InitPayment`.

The token/keychain core (`service.Authorization`, `service.Keychain`) is not part of
the given sources (only its callers are); it is modelled from the specification and
each such definition is marked `Modelled from the spec:`.

Go strings handled by the authentication code are modelled as `List Char`; machine
integers that matter (retry counters, key ids) are `Nat`.
-/

namespace Paymentd

/-! ## Go string splitting (`strings.Split`, `strings.SplitN` with a 1-char separator)

`strings.Split(s, sep)` with a one-character separator returns the substrings
between occurrences of the separator; `Split("", sep) = [""]`.
`strings.SplitN(s, sep, 2)` returns at most two parts: the prefix before the first
separator and the unsplit remainder. -/

/-- Go `strings.Split(s, string(c))` on a string modelled as `List Char`. -/
def splitChar (c : Char) : List Char → List (List Char)
  | [] => [[]]
  | x :: xs =>
    if x = c then [] :: splitChar c xs
    else
      match splitChar c xs with
      | [] => [[x]]
      | p :: ps => (x :: p) :: ps

/-- Go `strings.SplitN(s, string(c), 2)` on a string modelled as `List Char`. -/
def splitN2 (c : Char) : List Char → List (List Char)
  | [] => [[]]
  | x :: xs =>
    if x = c then [[], xs]
    else
      match splitN2 c xs with
      | [] => [[x]]
      | p :: ps => (x :: p) :: ps

theorem splitChar_ne_nil (c : Char) (s : List Char) : splitChar c s ≠ [] := by
  cases s with
  | nil => simp [splitChar]
  | cons x xs =>
    simp only [splitChar]
    split
    · simp
    · cases h : splitChar c xs <;> simp

theorem splitChar_append (c : Char) (u p : List Char) (hu : c ∉ u) :
    splitChar c (u ++ c :: p) = u :: splitChar c p := by
  induction u with
  | nil => simp [splitChar]
  | cons x xs ih =>
    have hx : x ≠ c := fun h => hu (h ▸ List.mem_cons_self x xs)
    have hxs : c ∉ xs := fun h => hu (List.mem_cons_of_mem x h)
    simp only [List.cons_append, splitChar, if_neg hx]
    rw [show xs.append (c :: p) = xs ++ (c :: p) from rfl, ih hxs]

/-! ## `authenticateBasicAuth` (src/pkg/service/api/v1/auth.go, lines 128-149)

```go
func (a *AdminAPI) authenticateBasicAuth(w http.ResponseWriter, r *http.Request) {
    if r.Header.Get("Authorization") == "" { requestBasicAuth(w); return }
    parts := strings.SplitN(r.Header.Get("Authorization"), " ", 2)
    if parts[0] != "Basic" { requestBasicAuth(w); return }
    auth, err := base64.StdEncoding.DecodeString(parts[1])
    if err != nil { requestBasicAuth(w); return }
    parts = strings.Split(string(auth), ":")
    if len(parts) != 2 { requestBasicAuth(w); return }
    a.authenticateSystemPassword(parts[1], w)
}
```

Slice indexing is modelled with `List.get?`: an out-of-bounds index is the Go
runtime panic `index out of range`, represented by the outcome `panicOOR`.
The standard-library base64 decoder is a parameter (it is not code of this
repository); it either fails or returns the decoded credential bytes. -/

/-- Outcome of `authenticateBasicAuth` before any password comparison. -/
inductive BAOutcome where
  /-- `requestBasicAuth`: HTTP 401 with a `WWW-Authenticate: Basic` challenge. -/
  | challenge401 : BAOutcome
  /-- A Go runtime panic from an out-of-range slice index. -/
  | panicOOR : BAOutcome
  /-- Control passes to `authenticateSystemPassword` with this password. -/
  | sysPw (pw : List Char) : BAOutcome
  deriving DecidableEq, Repr

/-- `authenticateBasicAuth`, parametrised by the base64 decoder `b64`. -/
def authenticateBasicAuth (b64 : List Char → Except Unit (List Char))
    (header : List Char) : BAOutcome :=
  if header = [] then .challenge401
  else
    let parts := splitN2 ' ' header
    match parts.get? 0 with
    | none => .panicOOR
    | some p0 =>
      if p0 ≠ "Basic".toList then .challenge401
      else
        match parts.get? 1 with
        | none => .panicOOR
        | some p1 =>
          match b64 p1 with
          | .error _ => .challenge401
          | .ok auth =>
            let parts2 := splitChar ':' auth
            if parts2.length ≠ 2 then .challenge401
            else
              match parts2.get? 1 with
              | none => .panicOOR
              | some pw => .sysPw pw

/-! ## `authenticateSystemPassword` (src/pkg/service/api/v1/auth.go, lines 23-48)

The stored password entry lookup and the bcrypt comparison are external
collaborators (database, bcrypt library); they are parameters. The control flow
is the function's own. -/

/-- Result of `config.EntryByNameDB` for the system password entry. -/
inductive PwEntryResult where
  | entryNotFound : PwEntryResult
  | dbError : PwEntryResult
  | ok (storedHash : List Char) : PwEntryResult
  deriving DecidableEq, Repr

/-- Result of `bcrypt.CompareHashAndPassword`. -/
inductive BcryptResult where
  | ok : BcryptResult
  | mismatch : BcryptResult
  | otherError : BcryptResult
  deriving DecidableEq, Repr

/-- Observable outcome of `authenticateSystemPassword`. -/
inductive SysPwOutcome where
  | http500 : SysPwOutcome
  | http401 : SysPwOutcome
  /-- `respondWithAuthorization` is invoked: credentials are issued. -/
  | authorized : SysPwOutcome
  deriving DecidableEq, Repr

/-- `authenticateSystemPassword`, parametrised by the password-entry lookup
result and the bcrypt comparison. -/
def authenticateSystemPassword (pwEntry : PwEntryResult)
    (bcryptCompare : List Char → List Char → BcryptResult)
    (pw : List Char) : SysPwOutcome :=
  match pwEntry with
  | .entryNotFound => .http500
  | .dbError => .http500
  | .ok storedHash =>
    match bcryptCompare storedHash pw with
    | .mismatch => .http401
    | .otherError => .http500
    | .ok => .authorized

/-- Observable response of the whole basic-auth pipeline:
`authenticateBasicAuth` followed, when it hands over a password, by
`authenticateSystemPassword`. -/
inductive BasicAuthResponse where
  | challenge401 : BasicAuthResponse
  | panicOOR : BasicAuthResponse
  | http500 : BasicAuthResponse
  | http401 : BasicAuthResponse
  | authorized : BasicAuthResponse
  deriving DecidableEq, Repr

/-- The composed basic-auth pipeline, as dispatched from `GetAuthorization`. -/
def basicAuthPipeline (b64 : List Char → Except Unit (List Char))
    (pwEntry : PwEntryResult)
    (bcryptCompare : List Char → List Char → BcryptResult)
    (header : List Char) : BasicAuthResponse :=
  match authenticateBasicAuth b64 header with
  | .challenge401 => .challenge401
  | .panicOOR => .panicOOR
  | .sysPw pw =>
    match authenticateSystemPassword pwEntry bcryptCompare pw with
    | .http500 => .http500
    | .http401 => .http401
    | .authorized => .authorized

theorem splitChar_not_mem (c : Char) (s : List Char) (h : c ∉ s) :
    splitChar c s = [s] := by
  induction s with
  | nil => simp [splitChar]
  | cons x xs ih =>
    have hx : x ≠ c := fun hxc => h (hxc ▸ List.mem_cons_self x xs)
    have hxs : c ∉ xs := fun hm => h (List.mem_cons_of_mem x hm)
    simp only [splitChar, if_neg hx, ih hxs]

theorem splitChar_length (c : Char) (s : List Char) :
    (splitChar c s).length = s.count c + 1 := by
  induction s with
  | nil => simp [splitChar]
  | cons x xs ih =>
    simp only [splitChar]
    by_cases hx : x = c
    · subst hx
      simp [List.count_cons, ih]
    · rcases hsp : splitChar c xs with _ | ⟨p, ps⟩
      · exact absurd hsp (splitChar_ne_nil c xs)
      · simp only [if_neg hx, List.length_cons]
        rw [hsp] at ih
        simp only [List.length_cons] at ih
        simp [List.count_cons, hx, ih]

theorem splitN2_append (c : Char) (u e : List Char) (hu : c ∉ u) :
    splitN2 c (u ++ c :: e) = [u, e] := by
  induction u with
  | nil => simp [splitN2]
  | cons x xs ih =>
    have hx : x ≠ c := fun hxc => hu (hxc ▸ List.mem_cons_self x xs)
    have hxs : c ∉ xs := fun hm => hu (List.mem_cons_of_mem x hm)
    simp only [List.cons_append, splitN2, if_neg hx]
    rw [show xs.append (c :: e) = xs ++ (c :: e) from rfl, ih hxs]

/-- The header value `"Basic " ++ e` as a `List Char`. -/
def basicHeader (e : List Char) : List Char := "Basic".toList ++ ' ' :: e

/-- The outcome `authenticateBasicAuth` produces once the credential bytes
`cred` have been base64-decoded: hand the part after the colon to the password
check when the colon-split has exactly two parts, otherwise challenge. -/
def credOutcome (cred : List Char) : BAOutcome :=
  match splitChar ':' cred with
  | [_, b] => .sysPw b
  | _ => .challenge401

theorem authenticateBasicAuth_cred (b64 : List Char → Except Unit (List Char))
    (e cred : List Char) (hb : b64 e = .ok cred) :
    authenticateBasicAuth b64 (basicHeader e) = credOutcome cred := by
  have hsplit : splitN2 ' ' (basicHeader e) = ["Basic".toList, e] :=
    splitN2_append ' ' "Basic".toList e (by decide)
  have hne : basicHeader e ≠ [] := by simp [basicHeader]
  simp only [authenticateBasicAuth, if_neg hne, hsplit, hb]
  rcases hcs : splitChar ':' cred with _ | ⟨a, _ | ⟨b, _ | ⟨d, ds⟩⟩⟩ <;>
    simp [credOutcome, hcs, hb]

/-- C5 failing input: an `Authorization` header whose value is exactly `"Basic"`,
with no space and no credentials. `strings.SplitN` yields the one-element slice
`["Basic"]`, the `parts[0] != "Basic"` guard passes, and the subsequent
`parts[1]` is an out-of-range index: a Go runtime panic, contradicting the
claim that every index into the split results is in bounds and that processing
never panics (the panic is only caught by the `recover` in
`api.Handler.ServeHTTP`, which logs at Crit severity and writes no 401). -/
theorem authenticateBasicAuth_panics_on_bare_basic :
    authenticateBasicAuth (fun _ => .error ()) "Basic".toList = .panicOOR := by
  decide

/-- C9: the username portion of HTTP Basic credentials has no effect.
For a header `"Basic " ++ e` whose base64 payload decodes to `u ++ ":" ++ p`
with a colon-free username `u`:
(i) if the colon-split of the decoded credential does not have exactly two
parts, the request is rejected with the 401 challenge;
(ii) when the password is colon-free, exactly the part after the colon is
passed to the password check;
(iii) two requests whose credentials decode to `u₁ ++ ":" ++ p` and
`u₂ ++ ":" ++ p` with colon-free usernames produce identical observable
responses through the whole pipeline. -/
theorem username_no_effect
    (b64 : List Char → Except Unit (List Char)) (pwEntry : PwEntryResult)
    (bc : List Char → List Char → BcryptResult)
    (u1 u2 p e1 e2 : List Char)
    (hu1 : ':' ∉ u1) (hu2 : ':' ∉ u2)
    (hb1 : b64 e1 = .ok (u1 ++ ':' :: p)) (hb2 : b64 e2 = .ok (u2 ++ ':' :: p)) :
    (∀ e cred, b64 e = .ok cred → (splitChar ':' cred).length ≠ 2 →
      authenticateBasicAuth b64 (basicHeader e) = .challenge401)
    ∧ (':' ∉ p → authenticateBasicAuth b64 (basicHeader e1) = .sysPw p)
    ∧ basicAuthPipeline b64 pwEntry bc (basicHeader e1)
        = basicAuthPipeline b64 pwEntry bc (basicHeader e2) := by
  have key : ∀ u : List Char, ':' ∉ u →
      credOutcome (u ++ ':' :: p)
        = (match splitChar ':' p with
           | [b] => BAOutcome.sysPw b
           | _ => BAOutcome.challenge401) := by
    intro u hu
    simp only [credOutcome, splitChar_append ':' u p hu]
    rcases splitChar ':' p with _ | ⟨b, _ | ⟨d, ds⟩⟩ <;> rfl
  refine ⟨?_, ?_, ?_⟩
  · intro e cred hb hlen
    rw [authenticateBasicAuth_cred b64 e cred hb]
    unfold credOutcome
    rcases hcs : splitChar ':' cred with _ | ⟨a, _ | ⟨b, _ | ⟨d, ds⟩⟩⟩ <;>
      first
        | rfl
        | (exact absurd (by rw [hcs]; rfl) hlen)
  · intro hp
    rw [authenticateBasicAuth_cred b64 e1 (u1 ++ ':' :: p) hb1, key u1 hu1,
      splitChar_not_mem ':' p hp]
  · unfold basicAuthPipeline
    rw [authenticateBasicAuth_cred b64 e1 (u1 ++ ':' :: p) hb1,
      authenticateBasicAuth_cred b64 e2 (u2 ++ ':' :: p) hb2,
      key u1 hu1, key u2 hu2]

/-- A concrete base64 decoder used to witness `username_no_effect`. -/
def wB64 : List Char → Except Unit (List Char) := fun s =>
  if s = "x".toList then .ok "alice:pw".toList else .ok "bob:pw".toList

/-- Witness for `username_no_effect` at concrete credentials
`alice:pw` and `bob:pw`. -/
theorem username_no_effect_witness :
    (':' ∉ "alice".toList ∧ ':' ∉ "bob".toList
      ∧ wB64 "x".toList = Except.ok ("alice".toList ++ ':' :: "pw".toList)
      ∧ wB64 "y".toList = Except.ok ("bob".toList ++ ':' :: "pw".toList))
    ∧ basicAuthPipeline wB64
        (PwEntryResult.ok "h".toList) (fun _ _ => BcryptResult.ok)
        (basicHeader "x".toList)
      = basicAuthPipeline wB64
          (PwEntryResult.ok "h".toList) (fun _ _ => BcryptResult.ok)
          (basicHeader "y".toList) :=
  ⟨⟨by decide, by decide, by rfl, by rfl⟩,
    (username_no_effect wB64
      (PwEntryResult.ok "h".toList) (fun _ _ => BcryptResult.ok)
      "alice".toList "bob".toList "pw".toList "x".toList "y".toList
      (by decide) (by decide) (by rfl) (by rfl)).2.2⟩

/-! ## The authorization token core

`service.Authorization` and `service.Keychain` are not among the given source
files — `auth.go` only calls them — so the definitions below are modelled from
the specification (§3, §4.1-§4.4). The signer is a parameter: the spec requires
only a deterministic keyed-hash primitive, so every theorem below is proved for
an arbitrary signer function. -/

/-- Errors of the token core (spec §7 taxonomy). -/
inductive AuthErr where
  | malformedToken : AuthErr
  | invalidSignature : AuthErr
  | invalidState : AuthErr
  | notEncoded : AuthErr
  deriving DecidableEq, Repr

/-- Keychain errors (spec §7 taxonomy). -/
inductive KeychainErr where
  | emptyKeychain : KeychainErr
  | keyNotFound : KeychainErr
  deriving DecidableEq, Repr

/-- Modelled from the spec: `KeychainKey` (§3) — id, symmetric secret,
retired flag. The creation timestamp plays no role in the claims settled here. -/
structure Key where
  id : Nat
  secret : List Nat
  retired : Bool
  deriving DecidableEq, Repr

/-- A signer: `sign secret message = tag` (spec §4.1), deterministic. -/
def SignFn := List Nat → List Nat → List Nat

/-- Modelled from the spec: the canonical encoding of (`keyID`, `expiry`,
`payload`) in a fixed field order (§4.3 `encode`), fed to the signer. -/
def canonicalMsg (keyID expiry : Nat) (payload : List (String × String)) : List Nat :=
  keyID :: expiry ::
    payload.foldr
      (fun kv acc =>
        (kv.1.toList.map Char.toNat) ++ [0] ++ (kv.2.toList.map Char.toNat) ++ [0] ++ acc)
      []

/-- Modelled from the spec: `AuthorizationToken` (§3). `payload` is the typed
mapping, readable only once set by the issuer or unmarshalled by a successful
`decode`; `rawPayload` is the parsed-but-untrusted payload populated by
`readFrom`; `none` models an unset field. -/
structure AuthToken where
  payload : Option (List (String × String))
  rawPayload : Option (List (String × String))
  expiry : Option Nat
  keyID : Option Nat
  signature : Option (List Nat)
  trusted : Bool
  deriving DecidableEq, Repr

/-- Modelled from the spec: the serialized wire form (§6) — an opaque value
from which `parse` separates key identifier, expiry, payload and signature
before any cryptographic verification; the exact byte layout is left to the
implementer, so the wire form is modelled as the separated fields. -/
structure Wire where
  keyID : Nat
  expiry : Nat
  payload : List (String × String)
  signature : List Nat
  deriving DecidableEq, Repr

/-- Modelled from the spec: `new(signer)` — empty token, no payload, no
expiry, not trusted (§4.3). -/
def newAuth : AuthToken :=
  { payload := none, rawPayload := none, expiry := none, keyID := none,
    signature := none, trusted := false }

/-- Modelled from the spec: `setPayload` — mutates an un-encoded token;
fails with invalid-state if called after `encode` (§4.3). -/
def setPayload (t : AuthToken) (p : List (String × String)) : Except AuthErr AuthToken :=
  if t.signature.isSome then .error .invalidState
  else .ok { t with payload := some p }

/-- Modelled from the spec: `setExpiry` — mutates an un-encoded token;
fails with invalid-state if called after `encode` (§4.3). -/
def setExpiry (t : AuthToken) (e : Nat) : Except AuthErr AuthToken :=
  if t.signature.isSome then .error .invalidState
  else .ok { t with expiry := some e }

/-- Modelled from the spec: `encode(key)` — computes the canonical bytes over
(`key.id`, `expiry`, `payload`), signs them with `key.secret`, stores `keyID`
and `signature`; fails if payload or expiry is unset, or on a `Parsed` token
(disjoint lifecycles, §4.3). -/
def encode (sign : SignFn) (t : AuthToken) (key : Key) : Except AuthErr AuthToken :=
  if t.rawPayload.isSome then .error .invalidState
  else
    match t.payload, t.expiry with
    | some p, some e =>
      .ok { t with keyID := some key.id,
                   signature := some (sign key.secret (canonicalMsg key.id e p)) }
    | _, _ => .error .invalidState

/-- Modelled from the spec: `serialized()` — requires a prior successful
`encode`; fails with a not-encoded error otherwise (§4.3). -/
def serializedTok (t : AuthToken) : Except AuthErr Wire :=
  match t.keyID, t.expiry, t.payload, t.signature with
  | some kid, some e, some p, some sig =>
    .ok { keyID := kid, expiry := e, payload := p, signature := sig }
  | _, _, _, _ => .error .notEncoded

/-- Modelled from the spec: `readFrom` — populates `keyID`, `expiry`, raw
payload and `signature` from the parsed wire form; explicitly leaves
`trusted = false` and the typed payload unexposed (§4.3). -/
def readFromWire (w : Wire) : AuthToken :=
  { payload := none, rawPayload := some w.payload, expiry := some w.expiry,
    keyID := some w.keyID, signature := some w.signature, trusted := false }

/-- Modelled from the spec: `decode(key)` — recomputes the expected signature
over the parsed canonical bytes using `key.secret` and compares; on success
unmarshals the payload and sets `trusted = true`; on mismatch fails with
invalid-signature and leaves the payload inaccessible; on a non-`Parsed`
token fails with invalid-state (§4.3). It takes no clock. -/
def decode (sign : SignFn) (t : AuthToken) (key : Key) : Except AuthErr AuthToken :=
  match t.rawPayload, t.expiry, t.keyID, t.signature with
  | some rp, some e, some kid, some sig =>
    if sig = sign key.secret (canonicalMsg kid e rp) then
      .ok { t with payload := some rp, trusted := true }
    else .error .invalidSignature
  | _, _, _, _ => .error .invalidState

/-- `auth.Expiry()` as read by `AuthHandler`: the expiry timestamp, readable
whether or not the token is trusted (§4.3); an unset expiry reads as the zero
time. -/
def tokenExpiry (t : AuthToken) : Nat := t.expiry.getD 0

/-- Modelled from the spec: `Keychain.currentKey` (`BinKey` at the call site
in `respondWithAuthorization`) — returns the active (non-retired) signing key,
fails with the empty-keychain error if none exists (§4.4). -/
def binKey (ks : List Key) : Except KeychainErr Key :=
  match ks.find? (fun k => !k.retired) with
  | none => .error .emptyKeychain
  | some k => .ok k

/-- Modelled from the spec: `Keychain.matchKey` — looks the parsed `keyID` up
among all non-purged keys; fails with key-not-found if absent (§4.4). -/
def matchKeyIn (ks : List Key) (t : AuthToken) : Except KeychainErr Key :=
  match t.keyID with
  | none => .error .keyNotFound
  | some kid =>
    match ks.find? (fun k => k.id = kid) with
    | none => .error .keyNotFound
    | some k => .ok k

/-- The issue-then-verify pipeline of the spec (§6): build a fresh token with
the given payload and expiry, `encode` with `key`, `serialized`, `readFrom`
the wire string, `decode` with the same key. -/
def roundTrip (sign : SignFn) (p : List (String × String)) (e : Nat) (key : Key) :
    Except AuthErr AuthToken := do
  let t0 ← setPayload newAuth p
  let t1 ← setExpiry t0 e
  let t2 ← encode sign t1 key
  let w ← serializedTok t2
  decode sign (readFromWire w) key

/-! ## `AuthHandler` (src/pkg/service/api/v1/auth.go, lines 171-227)

```go
authStr := r.Header.Get("Authorization")
if authStr == "" {
    if !a.ctx.Config().API.Cookie.AllowCookieAuth { failed.ServeHTTP(w, r); return }
    c, err := r.Cookie(AuthCookieName)
    if err != nil {
        if err != http.ErrNoCookie { w.WriteHeader(http.StatusInternalServerError); return }
        failed.ServeHTTP(w, r); return
    }
    authStr = c.Value
}
auth := service.NewAuthorization(a.authorizationHash())
_, err := auth.ReadFrom(strings.NewReader(authStr))
if err != nil { failed.ServeHTTP(w, r); return }
if auth.Expiry().Before(time.Now()) { failed.ServeHTTP(w, r); return }
key, err := a.ctx.Keychain().MatchKey(auth)
if err != nil { failed.ServeHTTP(w, r); return }
err = auth.Decode(key)
if err != nil { failed.ServeHTTP(w, r); return }
service.SetRequestContextVar(r, service.ContextVarAuthKey, auth.Payload)
success.ServeHTTP(w, r)
```

The outcomes of `auth.ReadFrom`, `Keychain().MatchKey` and `auth.Decode` are
environment parameters (arbitrary functions), so the theorems hold for any
behaviour of the token core; the handler's own control flow is the code's.
The handler also records the ordered trace of the operations it performs. -/

/-- The observable operations of `AuthHandler`, in the order performed. -/
inductive Step where
  | getCookie : Step
  | readFromStep : Step
  | expiryCheckStep : Step
  | matchKeyStep : Step
  | decodeStep : Step
  | setContextVarStep : Step
  | successStep : Step
  | failedStep : Step
  | write500Step : Step
  deriving DecidableEq, Repr

/-- Result of `r.Cookie(AuthCookieName)` when it fails. -/
inductive CookieErr where
  | noCookie : CookieErr
  | otherErr : CookieErr
  deriving DecidableEq, Repr

/-- Environment of one `AuthHandler` invocation: the request data and the
outcomes of the token-core calls. -/
structure AuthHandlerEnv where
  headerAuth : String
  allowCookieAuth : Bool
  cookieResult : Except CookieErr String
  readFromFn : String → Except AuthErr AuthToken
  now : Nat
  matchKeyFn : AuthToken → Except KeychainErr Key
  decodeFn : AuthToken → Key → Except AuthErr AuthToken

/-- Which wrapped handler `AuthHandler` dispatches to (or a 500 written by
the handler itself). -/
inductive Dispatch where
  | success : Dispatch
  | failed : Dispatch
  | http500 : Dispatch
  deriving DecidableEq, Repr

/-- Observable result of `AuthHandler`: the dispatch and the value stored in
the request context by `SetRequestContextVar`, if any. -/
structure HandlerResult where
  dispatch : Dispatch
  contextPayload : Option (List (String × String))
  deriving DecidableEq, Repr

/-- Lines 195-226 of auth.go: the verification sequence run on the extracted
token string `authStr`, starting from the already-performed steps `tr`. -/
def verifyCont (env : AuthHandlerEnv) (authStr : String) (tr : List Step) :
    HandlerResult × List Step :=
  match env.readFromFn authStr with
  | .error _ => (⟨.failed, none⟩, tr ++ [.readFromStep, .failedStep])
  | .ok auth =>
    if tokenExpiry auth < env.now then
      (⟨.failed, none⟩, tr ++ [.readFromStep, .expiryCheckStep, .failedStep])
    else
      match env.matchKeyFn auth with
      | .error _ =>
        (⟨.failed, none⟩,
         tr ++ [.readFromStep, .expiryCheckStep, .matchKeyStep, .failedStep])
      | .ok key =>
        match env.decodeFn auth key with
        | .error _ =>
          (⟨.failed, none⟩,
           tr ++ [.readFromStep, .expiryCheckStep, .matchKeyStep, .decodeStep,
                  .failedStep])
        | .ok auth2 =>
          (⟨.success, auth2.payload⟩,
           tr ++ [.readFromStep, .expiryCheckStep, .matchKeyStep, .decodeStep,
                  .setContextVarStep, .successStep])

/-- `AuthHandler` (lines 171-227): header/cookie extraction, then the
verification sequence. -/
def authHandler (env : AuthHandlerEnv) : HandlerResult × List Step :=
  if env.headerAuth = "" then
    if !env.allowCookieAuth then (⟨.failed, none⟩, [.failedStep])
    else
      match env.cookieResult with
      | .error .otherErr => (⟨.http500, none⟩, [.getCookie, .write500Step])
      | .error .noCookie => (⟨.failed, none⟩, [.getCookie, .failedStep])
      | .ok v => verifyCont env v [.getCookie]
  else verifyCont env env.headerAuth []

/-- `AuthRequiredHandler` (auth.go lines 160-164): `AuthHandler` with a failed
handler that writes HTTP 401 Unauthorized. `none` means the wrapped parent
handler runs; `some s` means status `s` was written. -/
def authRequiredStatus (env : AuthHandlerEnv) : Option Nat :=
  match (authHandler env).1.dispatch with
  | .failed => some 401
  | .http500 => some 500
  | .success => none

/-- The five possible step traces of the verification sequence. -/
def contTraces : List (List Step) :=
  [[.readFromStep, .failedStep],
   [.readFromStep, .expiryCheckStep, .failedStep],
   [.readFromStep, .expiryCheckStep, .matchKeyStep, .failedStep],
   [.readFromStep, .expiryCheckStep, .matchKeyStep, .decodeStep, .failedStep],
   [.readFromStep, .expiryCheckStep, .matchKeyStep, .decodeStep,
    .setContextVarStep, .successStep]]

/-- All possible step traces of `authHandler`. -/
def allTraces : List (List Step) :=
  [[.failedStep],
   [.getCookie, .failedStep],
   [.getCookie, .write500Step],
   [.readFromStep, .failedStep],
   [.readFromStep, .expiryCheckStep, .failedStep],
   [.readFromStep, .expiryCheckStep, .matchKeyStep, .failedStep],
   [.readFromStep, .expiryCheckStep, .matchKeyStep, .decodeStep, .failedStep],
   [.readFromStep, .expiryCheckStep, .matchKeyStep, .decodeStep,
    .setContextVarStep, .successStep],
   [.getCookie, .readFromStep, .failedStep],
   [.getCookie, .readFromStep, .expiryCheckStep, .failedStep],
   [.getCookie, .readFromStep, .expiryCheckStep, .matchKeyStep, .failedStep],
   [.getCookie, .readFromStep, .expiryCheckStep, .matchKeyStep, .decodeStep,
    .failedStep],
   [.getCookie, .readFromStep, .expiryCheckStep, .matchKeyStep, .decodeStep,
    .setContextVarStep, .successStep]]

theorem verifyCont_trace (env : AuthHandlerEnv) (s : String) (tr : List Step) :
    ∃ t ∈ contTraces, (verifyCont env s tr).2 = tr ++ t := by
  unfold verifyCont
  rcases hrf : env.readFromFn s with _ | auth
  · exact ⟨[.readFromStep, .failedStep], by decide, rfl⟩
  · by_cases hexp : tokenExpiry auth < env.now
    · exact ⟨[.readFromStep, .expiryCheckStep, .failedStep], by decide,
        by simp [hexp]⟩
    · rcases hmk : env.matchKeyFn auth with _ | key
      · exact ⟨[.readFromStep, .expiryCheckStep, .matchKeyStep, .failedStep],
          by decide, by simp [hexp, hmk]⟩
      · rcases hdec : env.decodeFn auth key with _ | auth2
        · exact ⟨[.readFromStep, .expiryCheckStep, .matchKeyStep, .decodeStep,
            .failedStep], by decide, by simp [hexp, hmk, hdec]⟩
        · exact ⟨[.readFromStep, .expiryCheckStep, .matchKeyStep, .decodeStep,
            .setContextVarStep, .successStep], by decide,
            by simp [hexp, hmk, hdec]⟩

theorem authHandler_trace (env : AuthHandlerEnv) :
    (authHandler env).2 ∈ allTraces := by
  have hsub : ∀ t ∈ contTraces, t ∈ allTraces := by decide
  have hsubc : ∀ t ∈ contTraces, (Step.getCookie :: t) ∈ allTraces := by decide
  unfold authHandler
  by_cases hhdr : env.headerAuth = ""
  · rw [if_pos hhdr]
    by_cases hck : env.allowCookieAuth
    · simp only [hck, Bool.not_true, Bool.false_eq_true, if_false]
      rcases hcr : env.cookieResult with e | v
      · cases e
        · exact (by decide : [Step.getCookie, Step.failedStep] ∈ allTraces)
        · exact (by decide : [Step.getCookie, Step.write500Step] ∈ allTraces)
      · obtain ⟨t, ht, heq⟩ := verifyCont_trace env v [Step.getCookie]
        rw [heq]
        exact hsubc t ht
    · simp only [Bool.not_eq_true] at hck
      simp only [hck, Bool.not_false, if_true]
      decide
  · rw [if_neg hhdr]
    obtain ⟨t, ht, heq⟩ := verifyCont_trace env env.headerAuth []
    rw [heq, List.nil_append]
    exact hsub t ht

theorem authHandler_header (env : AuthHandlerEnv) (h : env.headerAuth ≠ "") :
    authHandler env = verifyCont env env.headerAuth [] := by
  unfold authHandler
  rw [if_neg h]

theorem verifyCont_readFrom_err (env : AuthHandlerEnv) (s : String)
    (tr : List Step) (er : AuthErr) (h : env.readFromFn s = .error er) :
    verifyCont env s tr = (⟨.failed, none⟩, tr ++ [.readFromStep, .failedStep]) := by
  unfold verifyCont
  rw [h]

theorem verifyCont_expired (env : AuthHandlerEnv) (s : String) (tr : List Step)
    (auth : AuthToken) (h : env.readFromFn s = .ok auth)
    (he : tokenExpiry auth < env.now) :
    verifyCont env s tr
      = (⟨.failed, none⟩, tr ++ [.readFromStep, .expiryCheckStep, .failedStep]) := by
  unfold verifyCont
  rw [h]
  simp [he]

theorem verifyCont_matchKey_err (env : AuthHandlerEnv) (s : String)
    (tr : List Step) (auth : AuthToken) (er : KeychainErr)
    (h : env.readFromFn s = .ok auth) (he : ¬ tokenExpiry auth < env.now)
    (hm : env.matchKeyFn auth = .error er) :
    verifyCont env s tr
      = (⟨.failed, none⟩,
         tr ++ [.readFromStep, .expiryCheckStep, .matchKeyStep, .failedStep]) := by
  unfold verifyCont
  rw [h]
  simp [he, hm]

theorem verifyCont_decode_err (env : AuthHandlerEnv) (s : String)
    (tr : List Step) (auth : AuthToken) (key : Key) (er : AuthErr)
    (h : env.readFromFn s = .ok auth) (he : ¬ tokenExpiry auth < env.now)
    (hm : env.matchKeyFn auth = .ok key) (hd : env.decodeFn auth key = .error er) :
    verifyCont env s tr
      = (⟨.failed, none⟩,
         tr ++ [.readFromStep, .expiryCheckStep, .matchKeyStep, .decodeStep,
                .failedStep]) := by
  unfold verifyCont
  rw [h]
  simp [he, hm, hd]

theorem verifyCont_ok (env : AuthHandlerEnv) (s : String) (tr : List Step)
    (auth : AuthToken) (key : Key) (auth2 : AuthToken)
    (h : env.readFromFn s = .ok auth) (he : ¬ tokenExpiry auth < env.now)
    (hm : env.matchKeyFn auth = .ok key) (hd : env.decodeFn auth key = .ok auth2) :
    verifyCont env s tr
      = (⟨.success, auth2.payload⟩,
         tr ++ [.readFromStep, .expiryCheckStep, .matchKeyStep, .decodeStep,
                .setContextVarStep, .successStep]) := by
  unfold verifyCont
  rw [h]
  simp [he, hm, hd]

/-- Outcome case analysis for the verification sequence: either no payload is
stored and the success handler is not invoked, or every step succeeded and the
decoded payload is stored with the success dispatch. -/
theorem verifyCont_cases (env : AuthHandlerEnv) (s : String) (tr : List Step) :
    ((verifyCont env s tr).1.contextPayload = none
      ∧ (verifyCont env s tr).1.dispatch ≠ Dispatch.success)
    ∨ (∃ auth key auth2,
        env.readFromFn s = Except.ok auth
        ∧ ¬ tokenExpiry auth < env.now
        ∧ env.matchKeyFn auth = Except.ok key
        ∧ env.decodeFn auth key = Except.ok auth2
        ∧ (verifyCont env s tr).1 = ⟨Dispatch.success, auth2.payload⟩) := by
  rcases hrf : env.readFromFn s with er | auth
  · rw [verifyCont_readFrom_err env s tr er hrf]
    exact Or.inl ⟨rfl, by simp⟩
  · by_cases hexp : tokenExpiry auth < env.now
    · rw [verifyCont_expired env s tr auth hrf hexp]
      exact Or.inl ⟨rfl, by simp⟩
    · rcases hmk : env.matchKeyFn auth with er | key
      · rw [verifyCont_matchKey_err env s tr auth er hrf hexp hmk]
        exact Or.inl ⟨rfl, by simp⟩
      · rcases hdec : env.decodeFn auth key with er | auth2
        · rw [verifyCont_decode_err env s tr auth key er hrf hexp hmk hdec]
          exact Or.inl ⟨rfl, by simp⟩
        · rw [verifyCont_ok env s tr auth key auth2 hrf hexp hmk hdec]
          exact Or.inr ⟨auth, key, auth2, rfl, hexp, hmk, hdec, rfl⟩

/-- The rank of each operation in the order `AuthHandler` performs them:
cookie retrieval, `ReadFrom`, the expiry comparison, `MatchKey`, `Decode`,
the context-variable store, then the dispatch. -/
def stepRank : Step → Nat
  | .getCookie => 0
  | .readFromStep => 1
  | .expiryCheckStep => 2
  | .matchKeyStep => 3
  | .decodeStep => 4
  | .setContextVarStep => 5
  | .successStep => 6
  | .failedStep => 7
  | .write500Step => 8

/-- C1 (amended): on every request, `AuthHandler` performs its steps in the
fixed order token extraction → `Token.ReadFrom` → expiry comparison →
`Keychain.MatchKey` → `Token.Decode` → context store → dispatch; the expiry
comparison against the current time comes after a successful parse and
BEFORE `MatchKey` and `Decode` (not after them, as the claim stated). -/
theorem authHandler_step_order (env : AuthHandlerEnv) :
    ((authHandler env).2.Pairwise fun a b => stepRank a < stepRank b)
    ∧ (Step.matchKeyStep ∈ (authHandler env).2 →
        Step.expiryCheckStep ∈ (authHandler env).2)
    ∧ (Step.decodeStep ∈ (authHandler env).2 →
        Step.matchKeyStep ∈ (authHandler env).2)
    ∧ (Step.setContextVarStep ∈ (authHandler env).2 →
        Step.decodeStep ∈ (authHandler env).2)
    ∧ (Step.expiryCheckStep ∈ (authHandler env).2 →
        Step.readFromStep ∈ (authHandler env).2) := by
  have key : ∀ t ∈ allTraces,
      (t.Pairwise fun a b => stepRank a < stepRank b)
      ∧ (Step.matchKeyStep ∈ t → Step.expiryCheckStep ∈ t)
      ∧ (Step.decodeStep ∈ t → Step.matchKeyStep ∈ t)
      ∧ (Step.setContextVarStep ∈ t → Step.decodeStep ∈ t)
      ∧ (Step.expiryCheckStep ∈ t → Step.readFromStep ∈ t) := by decide
  exact key _ (authHandler_trace env)

/-- A concrete deterministic signer for the explicit environments below. -/
def wSign : SignFn := fun s m => s ++ m

/-- A concrete keychain key. -/
def keyC : Key := { id := 1, secret := [7], retired := false }

/-- A concrete well-signed wire token with expiry 10. -/
def wireC : Wire :=
  { keyID := 1, expiry := 10, payload := [("uid", "42")],
    signature := wSign keyC.secret (canonicalMsg 1 10 [("uid", "42")]) }

/-- A request environment in which every verification step succeeds. -/
def envOrder : AuthHandlerEnv :=
  { headerAuth := "T", allowCookieAuth := false,
    cookieResult := .error .noCookie,
    readFromFn := fun _ => .ok (readFromWire wireC),
    now := 5,
    matchKeyFn := matchKeyIn [keyC],
    decodeFn := decode wSign }

/-- C1 counterexample: on a concrete request whose token parses, matches its
key and decodes successfully, `AuthHandler` evaluates the expiry comparison
strictly BEFORE calling `MatchKey` and `Decode` — the claim states the
comparison comes after both. -/
theorem authHandler_expiry_before_matchKey :
    Step.expiryCheckStep ∈ (authHandler envOrder).2
    ∧ Step.matchKeyStep ∈ (authHandler envOrder).2
    ∧ Step.decodeStep ∈ (authHandler envOrder).2
    ∧ (authHandler envOrder).2.indexOf Step.expiryCheckStep
        < (authHandler envOrder).2.indexOf Step.matchKeyStep
    ∧ (authHandler envOrder).2.indexOf Step.expiryCheckStep
        < (authHandler envOrder).2.indexOf Step.decodeStep := by
  decide

/-- Witness for `authHandler_step_order` at the all-steps-succeed
environment `envOrder`. -/
theorem authHandler_step_order_witness :
    Step.matchKeyStep ∈ (authHandler envOrder).2
    ∧ Step.expiryCheckStep ∈ (authHandler envOrder).2 :=
  ⟨by decide, (authHandler_step_order envOrder).2.1 (by decide)⟩

/-- Evaluation of the issue-then-verify pipeline: it always succeeds and
returns the trusted token carrying the original payload and expiry, for any
deterministic signer. -/
theorem roundTrip_eval (sign : SignFn) (p : List (String × String)) (e : Nat)
    (key : Key) :
    roundTrip sign p e key =
      Except.ok { payload := some p, rawPayload := some p, expiry := some e,
                  keyID := some key.id,
                  signature := some (sign key.secret (canonicalMsg key.id e p)),
                  trusted := true } := by
  show (if sign key.secret (canonicalMsg key.id e p)
          = sign key.secret (canonicalMsg key.id e p) then
        Except.ok ({ payload := some p, rawPayload := some p, expiry := some e,
                     keyID := some key.id,
                     signature := some (sign key.secret (canonicalMsg key.id e p)),
                     trusted := true } : AuthToken)
      else Except.error AuthErr.invalidSignature)
      = Except.ok { payload := some p, rawPayload := some p, expiry := some e,
                    keyID := some key.id,
                    signature := some (sign key.secret (canonicalMsg key.id e p)),
                    trusted := true }
  rw [if_pos rfl]

/-- C6: for any payload mapping, any expiry and any key (and any deterministic
signer), `Encode` with that key, then `Serialized`, then `ReadFrom`, then
`Decode` with the same key succeeds and yields back an equal payload and an
equal expiry, with `trusted = true`. -/
theorem encode_decode_round_trip (sign : SignFn) (p : List (String × String))
    (e : Nat) (key : Key) :
    ∃ t, roundTrip sign p e key = Except.ok t
      ∧ t.payload = some p ∧ t.expiry = some e ∧ t.trusted = true :=
  ⟨_, roundTrip_eval sign p e key, rfl, rfl, rfl⟩

theorem authHandler_cookie (env : AuthHandlerEnv) (s : String)
    (h1 : env.headerAuth = "") (h2 : env.allowCookieAuth = true)
    (h3 : env.cookieResult = Except.ok s) :
    authHandler env = verifyCont env s [Step.getCookie] := by
  unfold authHandler
  rw [if_pos h1]
  simp only [h2, h3, Bool.not_true, Bool.false_eq_true, if_false]

/-- The token string `s` was extracted by the transport layer: either it is a
non-empty `Authorization` header, or the header is empty, cookie auth is
enabled, and the auth cookie carries `s`. -/
def ExtractedToken (env : AuthHandlerEnv) (s : String) : Prop :=
  env.headerAuth = s ∧ s ≠ ""
    ∨ env.headerAuth = "" ∧ env.allowCookieAuth = true
      ∧ env.cookieResult = Except.ok s

theorem authHandler_extracted (env : AuthHandlerEnv) (s : String)
    (hs : ExtractedToken env s) :
    ∃ tr0, authHandler env = verifyCont env s tr0 := by
  rcases hs with ⟨hh, hne⟩ | ⟨h1, h2, h3⟩
  · refine ⟨[], ?_⟩
    rw [authHandler_header env (by rw [hh]; exact hne), hh]
  · exact ⟨[Step.getCookie], authHandler_cookie env s h1 h2 h3⟩

/-- C2: `decode` takes no clock and is deterministic, so a token whose expiry
`e` lies strictly in the past (`e < now`) still decodes successfully with its
payload accessible; and in `AuthHandler` a parsed token whose `Expiry()` is
before now is routed to the failed handler by the explicit comparison — the
trace stops at the expiry check, and neither `MatchKey` nor `Decode` is ever
invoked. -/
theorem decode_clock_agnostic (sign : SignFn) (p : List (String × String))
    (e : Nat) (key : Key) (now : Nat) (hpast : e < now)
    (env : AuthHandlerEnv) (s : String) (auth : AuthToken)
    (hs : ExtractedToken env s)
    (hread : env.readFromFn s = Except.ok auth)
    (hexp : tokenExpiry auth < env.now) :
    (∃ t, roundTrip sign p e key = Except.ok t
      ∧ t.payload = some p ∧ t.trusted = true)
    ∧ (authHandler env).1 = ⟨Dispatch.failed, none⟩
    ∧ Step.expiryCheckStep ∈ (authHandler env).2
    ∧ Step.decodeStep ∉ (authHandler env).2
    ∧ Step.matchKeyStep ∉ (authHandler env).2 := by
  obtain ⟨tr0, htr⟩ := authHandler_extracted env s hs
  have hv := verifyCont_expired env s tr0 auth hread hexp
  rcases hs with ⟨hh, hne⟩ | ⟨h1, h2, h3⟩
  · have htr0 : authHandler env
        = (⟨Dispatch.failed, none⟩,
           [Step.readFromStep, Step.expiryCheckStep, Step.failedStep]) := by
      rw [authHandler_header env (by rw [hh]; exact hne), hh,
        verifyCont_expired env s [] auth hread hexp]
      rfl
    exact ⟨⟨_, roundTrip_eval sign p e key, rfl, rfl⟩,
      by rw [htr0], by rw [htr0]; decide, by rw [htr0]; decide,
      by rw [htr0]; decide⟩
  · have htr0 : authHandler env
        = (⟨Dispatch.failed, none⟩,
           [Step.getCookie, Step.readFromStep, Step.expiryCheckStep,
            Step.failedStep]) := by
      rw [authHandler_cookie env s h1 h2 h3,
        verifyCont_expired env s [Step.getCookie] auth hread hexp]
      rfl
    exact ⟨⟨_, roundTrip_eval sign p e key, rfl, rfl⟩,
      by rw [htr0], by rw [htr0]; decide, by rw [htr0]; decide,
      by rw [htr0]; decide⟩

/-- A concrete expired wire token (expiry 3, checked against now = 5). -/
def wireExpired : Wire :=
  { keyID := 1, expiry := 3, payload := [("uid", "42")],
    signature := wSign keyC.secret (canonicalMsg 1 3 [("uid", "42")]) }

/-- A request environment presenting the expired token. -/
def envExpired : AuthHandlerEnv :=
  { headerAuth := "T", allowCookieAuth := false,
    cookieResult := .error .noCookie,
    readFromFn := fun _ => .ok (readFromWire wireExpired),
    now := 5,
    matchKeyFn := matchKeyIn [keyC],
    decodeFn := decode wSign }

/-- Witness for `decode_clock_agnostic` at the concrete expired token. -/
theorem decode_clock_agnostic_witness :
    ((3 : Nat) < 5 ∧ ExtractedToken envExpired "T"
      ∧ envExpired.readFromFn "T" = Except.ok (readFromWire wireExpired)
      ∧ tokenExpiry (readFromWire wireExpired) < envExpired.now)
    ∧ ((∃ t, roundTrip wSign [("uid", "42")] 3 keyC = Except.ok t
          ∧ t.payload = some [("uid", "42")] ∧ t.trusted = true)
        ∧ (authHandler envExpired).1 = ⟨Dispatch.failed, none⟩
        ∧ Step.expiryCheckStep ∈ (authHandler envExpired).2
        ∧ Step.decodeStep ∉ (authHandler envExpired).2
        ∧ Step.matchKeyStep ∉ (authHandler envExpired).2) :=
  ⟨⟨by decide, Or.inl ⟨rfl, by decide⟩, rfl, by decide⟩,
    decode_clock_agnostic wSign [("uid", "42")] 3 keyC 5 (by decide)
      envExpired "T" (readFromWire wireExpired) (Or.inl ⟨rfl, by decide⟩)
      rfl (by decide)⟩

/-- C3: each verification failure — a parse error from `ReadFrom`, a lookup
error from `MatchKey`, or a verification error from `Decode` — makes
`AuthHandler` dispatch to the failed handler with no payload stored and the
success handler not invoked (the embedding is a total function: no branch
panics), and `AuthRequiredHandler` turns that failure into HTTP 401. -/
theorem verification_failures_fail (env : AuthHandlerEnv) (s : String)
    (hs : ExtractedToken env s) :
    (∀ er, env.readFromFn s = Except.error er →
      (authHandler env).1 = ⟨Dispatch.failed, none⟩
      ∧ authRequiredStatus env = some 401)
    ∧ (∀ auth er, env.readFromFn s = Except.ok auth →
        ¬ tokenExpiry auth < env.now → env.matchKeyFn auth = Except.error er →
        (authHandler env).1 = ⟨Dispatch.failed, none⟩
        ∧ authRequiredStatus env = some 401)
    ∧ (∀ auth key er, env.readFromFn s = Except.ok auth →
        ¬ tokenExpiry auth < env.now → env.matchKeyFn auth = Except.ok key →
        env.decodeFn auth key = Except.error er →
        (authHandler env).1 = ⟨Dispatch.failed, none⟩
        ∧ authRequiredStatus env = some 401) := by
  obtain ⟨tr0, htr⟩ := authHandler_extracted env s hs
  refine ⟨fun er hrf => ?_, fun auth er hrf hexp hmk => ?_,
    fun auth key er hrf hexp hmk hdec => ?_⟩
  · rw [verifyCont_readFrom_err env s tr0 er hrf] at htr
    exact ⟨by rw [htr], by unfold authRequiredStatus; rw [htr]⟩
  · rw [verifyCont_matchKey_err env s tr0 auth er hrf hexp hmk] at htr
    exact ⟨by rw [htr], by unfold authRequiredStatus; rw [htr]⟩
  · rw [verifyCont_decode_err env s tr0 auth key er hrf hexp hmk hdec] at htr
    exact ⟨by rw [htr], by unfold authRequiredStatus; rw [htr]⟩

/-- A request environment whose token string fails to parse. -/
def envMalformed : AuthHandlerEnv :=
  { headerAuth := "T", allowCookieAuth := false,
    cookieResult := .error .noCookie,
    readFromFn := fun _ => .error .malformedToken,
    now := 5,
    matchKeyFn := matchKeyIn [keyC],
    decodeFn := decode wSign }

/-- Witness for `verification_failures_fail` at a malformed token. -/
theorem verification_failures_fail_witness :
    (ExtractedToken envMalformed "T"
      ∧ envMalformed.readFromFn "T" = Except.error AuthErr.malformedToken)
    ∧ ((authHandler envMalformed).1 = ⟨Dispatch.failed, none⟩
        ∧ authRequiredStatus envMalformed = some 401) :=
  ⟨⟨Or.inl ⟨rfl, by decide⟩, rfl⟩,
    (verification_failures_fail envMalformed "T" (Or.inl ⟨rfl, by decide⟩)).1
      AuthErr.malformedToken rfl⟩

/-- C4: `AuthHandler` exposes a payload to downstream handlers only after a
successful `Decode`: either no context variable is stored and the success
handler is not invoked, or `ReadFrom`, the expiry check, `MatchKey` and
`Decode` all succeeded and exactly the decoded token's payload is stored with
the success dispatch. -/
theorem payload_only_after_decode (env : AuthHandlerEnv) :
    ((authHandler env).1.contextPayload = none
      ∧ (authHandler env).1.dispatch ≠ Dispatch.success)
    ∨ (∃ s auth key auth2,
        (s = env.headerAuth ∨ env.cookieResult = Except.ok s)
        ∧ env.readFromFn s = Except.ok auth
        ∧ ¬ tokenExpiry auth < env.now
        ∧ env.matchKeyFn auth = Except.ok key
        ∧ env.decodeFn auth key = Except.ok auth2
        ∧ (authHandler env).1 = ⟨Dispatch.success, auth2.payload⟩) := by
  by_cases hhdr : env.headerAuth = ""
  · unfold authHandler
    rw [if_pos hhdr]
    by_cases hck : env.allowCookieAuth
    · simp only [hck, Bool.not_true, Bool.false_eq_true, if_false]
      rcases hcr : env.cookieResult with e | v
      · cases e
        · exact Or.inl ⟨by simp, by simp⟩
        · exact Or.inl ⟨by simp, by simp⟩
      · rcases verifyCont_cases env v [Step.getCookie] with ⟨h1, h2⟩ | h
        · exact Or.inl ⟨h1, h2⟩
        · obtain ⟨auth, key, auth2, hrf, hexp, hmk, hdec, hres⟩ := h
          exact Or.inr ⟨v, auth, key, auth2, Or.inr rfl, hrf, hexp, hmk, hdec, hres⟩
    · simp only [Bool.not_eq_true] at hck
      simp only [hck, Bool.not_false, if_true]
      exact Or.inl ⟨by simp, by simp⟩
  · rw [authHandler_header env hhdr]
    rcases verifyCont_cases env env.headerAuth [] with ⟨h1, h2⟩ | h
    · exact Or.inl ⟨h1, h2⟩
    · obtain ⟨auth, key, auth2, hrf, hexp, hmk, hdec, hres⟩ := h
      exact Or.inr ⟨env.headerAuth, auth, key, auth2, Or.inl rfl, hrf, hexp, hmk,
        hdec, hres⟩

/-! ## `respondWithAuthorization` (src/pkg/service/api/v1/auth.go, lines 56-102)

```go
auth := service.NewAuthorization(a.authorizationHash())
auth.Payload[AuthUserIDKey] = systemUserID
auth.Expires(time.Now().Add(AuthLifetime))
key, err := a.ctx.Keychain().BinKey()
if err != nil { ...; w.WriteHeader(500); return }
err = auth.Encode(key)
if err != nil { ...; w.WriteHeader(500); return }
resp.Authorization, err = auth.Serialized()
if err != nil { ...; w.WriteHeader(500); return }
jsonResp, err := json.Marshal(resp)   // a one-string-field struct: cannot fail
if cookie auth allowed { http.SetCookie(w, {Value: resp.Authorization, ...}) }
w.Write(jsonResp)
```

`json.Marshal` of a struct holding one string cannot fail and is modelled as
total. -/

/-- The `AuthUserIDKey` payload key; its literal value is not in the given
sources and plays no role in the claims. -/
def AuthUserIDKey : String := "userID"

/-- The `systemUserID` payload value; its literal value is not in the given
sources and plays no role in the claims. -/
def systemUserID : String := "system"

/-- Go map assignment `m[k] = v` on the association-list payload. -/
def mapSet (m : List (String × String)) (k v : String) : List (String × String) :=
  if m.any (fun kv => kv.1 = k) then
    m.map (fun kv => if kv.1 = k then (k, v) else kv)
  else m ++ [(k, v)]

/-- Environment of one `respondWithAuthorization` call. -/
structure IssueEnv where
  sign : SignFn
  keychain : List Key
  lifetime : Nat
  now : Nat
  allowCookieAuth : Bool

/-- Observable result of `respondWithAuthorization`: HTTP status, the
authorization string written in the JSON body, and the cookie value. -/
structure IssueResult where
  status : Nat
  body : Option Wire
  cookie : Option Wire
  deriving DecidableEq, Repr

/-- `respondWithAuthorization`: build a fresh token, set payload and expiry,
fetch the signing key, `Encode`, `Serialized`, then write cookie (when
enabled) and body. -/
def respondWithAuthorization (env : IssueEnv) : IssueResult :=
  let auth1 :=
    { newAuth with
      payload := some (mapSet (newAuth.payload.getD []) AuthUserIDKey systemUserID) }
  let auth2 := { auth1 with expiry := some (env.now + env.lifetime) }
  match binKey env.keychain with
  | .error _ => { status := 500, body := none, cookie := none }
  | .ok key =>
    match encode env.sign auth2 key with
    | .error _ => { status := 500, body := none, cookie := none }
    | .ok auth3 =>
      match serializedTok auth3 with
      | .error _ => { status := 500, body := none, cookie := none }
      | .ok w =>
        { status := 200, body := some w,
          cookie := if env.allowCookieAuth then some w else none }

/-- The wire token `respondWithAuthorization` issues when the keychain
yields `key`. -/
def issuedWire (env : IssueEnv) (key : Key) : Wire :=
  { keyID := key.id, expiry := env.now + env.lifetime,
    payload := mapSet [] AuthUserIDKey systemUserID,
    signature := env.sign key.secret
      (canonicalMsg key.id (env.now + env.lifetime)
        (mapSet [] AuthUserIDKey systemUserID)) }

/-- C7: the issuing path sets payload and expiry on a fresh token, obtains the
signing key from the keychain, encodes with it, serializes, and hands the
string to the transport (JSON body, plus cookie exactly when cookie auth is
enabled); if key retrieval fails the handler answers 500 and writes no
authorization string (in the model `Encode` and `Serialized` cannot fail on
this well-built token, so the 500 branches they guard are unreachable, and
every non-200 outcome carries no token). -/
theorem respondWithAuthorization_sequence (env : IssueEnv) :
    (∀ er, binKey env.keychain = Except.error er →
      respondWithAuthorization env = { status := 500, body := none, cookie := none })
    ∧ (∀ key, binKey env.keychain = Except.ok key →
        respondWithAuthorization env =
          { status := 200, body := some (issuedWire env key),
            cookie := if env.allowCookieAuth then some (issuedWire env key)
              else none })
    ∧ ((respondWithAuthorization env).status = 200
        ∨ respondWithAuthorization env = { status := 500, body := none, cookie := none }) := by
  refine ⟨fun er hb => ?_, fun key hb => ?_, ?_⟩
  · unfold respondWithAuthorization
    rw [hb]
  · unfold respondWithAuthorization
    rw [hb]
    rfl
  · rcases hb : binKey env.keychain with er | key
    · exact Or.inr (by unfold respondWithAuthorization; rw [hb])
    · refine Or.inl ?_
      unfold respondWithAuthorization
      rw [hb]
      rfl

/-- A concrete issuing environment with the singleton keychain `[keyC]`. -/
def envIssue : IssueEnv :=
  { sign := wSign, keychain := [keyC], lifetime := 900, now := 100,
    allowCookieAuth := true }

/-- Witness for `respondWithAuthorization_sequence` with the singleton
keychain `[keyC]`. -/
theorem respondWithAuthorization_sequence_witness :
    binKey envIssue.keychain = Except.ok keyC
    ∧ respondWithAuthorization envIssue =
      { status := 200, body := some (issuedWire envIssue keyC),
        cookie := if envIssue.allowCookieAuth then some (issuedWire envIssue keyC)
          else none } :=
  ⟨rfl, (respondWithAuthorization_sequence envIssue).2.1 keyC rfl⟩

/-- C8: an empty keychain makes current-key retrieval (`BinKey`) fail with the
empty-keychain error, and the issuing path answers HTTP 500 — logged as an
error, unlike verification failures — issuing neither body nor cookie token. -/
theorem empty_keychain_500 (env : IssueEnv) (h : env.keychain = []) :
    binKey env.keychain = Except.error KeychainErr.emptyKeychain
    ∧ respondWithAuthorization env
        = { status := 500, body := none, cookie := none } := by
  have hb : binKey env.keychain = Except.error KeychainErr.emptyKeychain := by
    rw [h]
    rfl
  exact ⟨hb, by unfold respondWithAuthorization; rw [hb]⟩

/-- A concrete issuing environment with an empty keychain. -/
def envIssueEmpty : IssueEnv :=
  { sign := wSign, keychain := [], lifetime := 900, now := 100,
    allowCookieAuth := false }

/-- Witness for `empty_keychain_500` at a concrete empty-keychain
environment. -/
theorem empty_keychain_500_witness :
    envIssueEmpty.keychain = ([] : List Key)
    ∧ (binKey envIssueEmpty.keychain = Except.error KeychainErr.emptyKeychain
        ∧ respondWithAuthorization envIssueEmpty
          = { status := 500, body := none, cookie := none }) :=
  ⟨rfl, empty_keychain_500 envIssueEmpty rfl⟩

/-! ## `Driver.InitPayment` (src/pkg/service/provider/fritzpay/init.go, lines 44-121)

```go
maxRetries := d.ctx.Config().Database.TransactionMaxRetries
var retries int
beginTx:
if retries >= maxRetries { ...; return nil, ErrDB }
tx, err = d.ctx.PaymentDB().Begin()
if err != nil { ...; return nil, ErrDB }
fritzpayP, err := PaymentByPaymentIDTx(tx, p.PaymentID())
if err != nil && err != ErrPaymentNotFound { return nil, ErrDB }
if err == nil { if fritzpayP.MethodKey != method.MethodKey { return nil, ErrConflict } }
if err == ErrPaymentNotFound { ...; err = InsertPaymentTx(tx, &fritzpayP)
    if err != nil { return nil, ErrDB } }
if currentStatus, err := d.paymentService.PaymentTransaction(tx, p);
   err != nil && err != payment.ErrPaymentTransactionNotFound { return nil, ErrDB
} else {
  if currentStatus.Status != payment.PaymentStatusPending {
    err = d.paymentService.SetPaymentTransaction(tx, paymentTx)
    if err != nil {
      if err == paymentService.ErrDBLockTimeout { retries++; sleep; goto beginTx }
      return nil, ErrDB
    }
  }
}
err = tx.Commit()
if err != nil {
  if mysqlErr, ok := err.(*mysql.MySQLError); ok {
    if mysqlErr.Number == 1213 { retries++; sleep; goto beginTx }
  }
  return nil, ErrDB
}
```

The database outcomes of each attempt are an oracle `Nat → TxAttempt` indexed
by the retry counter; the function's own control flow is embedded exactly.
`time.Sleep` has no observable effect here and is dropped. -/

/-- What `InitPayment` returns (the successful case returns the HTTP handler). -/
inductive InitResult where
  | errDB : InitResult
  | errConflict : InitResult
  | okHandler : InitResult
  deriving DecidableEq, Repr

/-- Outcome of `PaymentByPaymentIDTx`. -/
inductive LookupRes where
  | found (methodKey : Nat) : LookupRes
  | notFound : LookupRes
  | dbErr : LookupRes
  deriving DecidableEq, Repr

/-- Outcome of `paymentService.PaymentTransaction`: the current status (zero
value on not-found, which compares unequal to `pending`), or a DB error. -/
inductive StatusRes where
  | found (isPending : Bool) : StatusRes
  | notFound : StatusRes
  | dbErr : StatusRes
  deriving DecidableEq, Repr

/-- Outcome of `paymentService.SetPaymentTransaction`. -/
inductive SetTxRes where
  | ok : SetTxRes
  | lockTimeout : SetTxRes
  | otherErr : SetTxRes
  deriving DecidableEq, Repr

/-- Outcome of `tx.Commit()`: success, a MySQL error with number 1213
(deadlock), or any other error. -/
inductive CommitRes where
  | ok : CommitRes
  | deadlock1213 : CommitRes
  | otherErr : CommitRes
  deriving DecidableEq, Repr

/-- The database outcomes of one transaction attempt. -/
structure TxAttempt where
  beginOk : Bool
  lookup : LookupRes
  insertOk : Bool
  status : StatusRes
  setTx : SetTxRes
  commit : CommitRes
  deriving DecidableEq, Repr

/-- One execution of the labelled block either finishes with a result or
retries (`goto beginTx` after `retries++`). -/
inductive StepOut where
  | done (r : InitResult) : StepOut
  | retry : StepOut
  deriving DecidableEq, Repr

/-- The commit phase of one attempt. -/
def initCommit : CommitRes → StepOut
  | .ok => .done .okHandler
  | .deadlock1213 => .retry
  | .otherErr => .done .errDB

/-- The `SetPaymentTransaction` call followed by commit. -/
def initSetTx (stx : SetTxRes) (cm : CommitRes) : StepOut :=
  match stx with
  | .lockTimeout => .retry
  | .otherErr => .done .errDB
  | .ok => initCommit cm

/-- The payment-transaction status phase: a pending payment skips the new
transaction and goes straight to commit; not-found behaves like a non-pending
status (the zero-value status is not `pending`). -/
def initStatusPhase (st : StatusRes) (stx : SetTxRes) (cm : CommitRes) : StepOut :=
  match st with
  | .dbErr => .done .errDB
  | .found true => initCommit cm
  | .found false => initSetTx stx cm
  | .notFound => initSetTx stx cm

/-- One execution of the body of the labelled block (after the retry check). -/
def initAttempt (methodKey : Nat) (a : TxAttempt) : StepOut :=
  if !a.beginOk then .done .errDB
  else
    match a.lookup with
    | .dbErr => .done .errDB
    | .found mk =>
      if mk ≠ methodKey then .done .errConflict
      else initStatusPhase a.status a.setTx a.commit
    | .notFound =>
      if !a.insertOk then .done .errDB
      else initStatusPhase a.status a.setTx a.commit

/-- The `beginTx` loop of `InitPayment`: starting at retry counter `retries`,
returns the result together with the number of executions of the labelled
block (the retry check included, as in the source). Termination is exactly the
source's argument: every `goto beginTx` strictly increments `retries`, which
is checked against `maxRetries` at the top of the block. -/
def initLoop (methodKey maxRetries : Nat) (oracle : Nat → TxAttempt)
    (retries : Nat) : InitResult × Nat :=
  if h : maxRetries ≤ retries then (.errDB, 1)
  else
    match initAttempt methodKey (oracle retries) with
    | .done r => (r, 1)
    | .retry =>
      let q := initLoop methodKey maxRetries oracle (retries + 1)
      (q.1, q.2 + 1)
termination_by maxRetries - retries
decreasing_by omega

theorem initLoop_ge (methodKey maxRetries : Nat) (oracle : Nat → TxAttempt)
    (retries : Nat) (h : maxRetries ≤ retries) :
    initLoop methodKey maxRetries oracle retries = (.errDB, 1) := by
  unfold initLoop
  rw [dif_pos h]

theorem initLoop_done (methodKey maxRetries : Nat) (oracle : Nat → TxAttempt)
    (retries : Nat) (h : ¬ maxRetries ≤ retries) (r : InitResult)
    (hd : initAttempt methodKey (oracle retries) = .done r) :
    initLoop methodKey maxRetries oracle retries = (r, 1) := by
  unfold initLoop
  rw [dif_neg h, hd]

theorem initLoop_retry (methodKey maxRetries : Nat) (oracle : Nat → TxAttempt)
    (retries : Nat) (h : ¬ maxRetries ≤ retries)
    (hr : initAttempt methodKey (oracle retries) = .retry) :
    initLoop methodKey maxRetries oracle retries
      = ((initLoop methodKey maxRetries oracle (retries + 1)).1,
         (initLoop methodKey maxRetries oracle (retries + 1)).2 + 1) := by
  conv_lhs => unfold initLoop
  rw [dif_neg h, hr]

theorem initCommit_retry (cm : CommitRes) (h : initCommit cm = .retry) :
    cm = .deadlock1213 := by
  cases cm <;> simp_all [initCommit]

theorem initSetTx_retry (stx : SetTxRes) (cm : CommitRes)
    (h : initSetTx stx cm = .retry) :
    stx = .lockTimeout ∨ cm = .deadlock1213 := by
  cases stx with
  | lockTimeout => exact Or.inl rfl
  | otherErr => simp [initSetTx] at h
  | ok => exact Or.inr (initCommit_retry cm h)

theorem initStatusPhase_retry (st : StatusRes) (stx : SetTxRes) (cm : CommitRes)
    (h : initStatusPhase st stx cm = .retry) :
    stx = .lockTimeout ∨ cm = .deadlock1213 := by
  cases st with
  | dbErr => simp [initStatusPhase] at h
  | found b =>
    cases b with
    | true => exact Or.inr (initCommit_retry cm h)
    | false => exact initSetTx_retry stx cm h
  | notFound => exact initSetTx_retry stx cm h

theorem initAttempt_retry (methodKey : Nat) (a : TxAttempt)
    (h : initAttempt methodKey a = .retry) :
    a.setTx = SetTxRes.lockTimeout ∨ a.commit = CommitRes.deadlock1213 := by
  rcases a with ⟨bOk, lk, insOk, st, stx, cm⟩
  cases bOk
  · simp [initAttempt] at h
  · cases lk with
    | dbErr => simp [initAttempt] at h
    | found mk =>
      by_cases hmk : mk ≠ methodKey
      · simp [initAttempt, hmk] at h
      · simp only [initAttempt, Bool.not_true, Bool.false_eq_true, if_false,
          if_neg hmk] at h
        exact initStatusPhase_retry st stx cm h
    | notFound =>
      cases insOk
      · simp [initAttempt] at h
      · simp only [initAttempt, Bool.not_true, Bool.false_eq_true, if_false] at h
        exact initStatusPhase_retry st stx cm h

theorem initLoop_count (methodKey maxRetries : Nat) (oracle : Nat → TxAttempt) :
    ∀ fuel retries, maxRetries - retries ≤ fuel →
      (initLoop methodKey maxRetries oracle retries).2
        ≤ maxRetries - retries + 1 := by
  intro fuel
  induction fuel with
  | zero =>
    intro r h
    have hge : maxRetries ≤ r := by omega
    rw [initLoop_ge methodKey maxRetries oracle r hge]
    omega
  | succ n ih =>
    intro r h
    by_cases hge : maxRetries ≤ r
    · rw [initLoop_ge methodKey maxRetries oracle r hge]
      omega
    · rcases hstep : initAttempt methodKey (oracle r) with res | _
      · rw [initLoop_done methodKey maxRetries oracle r hge res hstep]
        omega
      · rw [initLoop_retry methodKey maxRetries oracle r hge hstep]
        have := ih (r + 1) (by omega)
        simp only
        omega

theorem initLoop_all_retry (methodKey maxRetries : Nat)
    (oracle : Nat → TxAttempt)
    (hall : ∀ i, initAttempt methodKey (oracle i) = .retry) :
    ∀ fuel retries, maxRetries - retries ≤ fuel →
      (initLoop methodKey maxRetries oracle retries).1 = .errDB := by
  intro fuel
  induction fuel with
  | zero =>
    intro r h
    have hge : maxRetries ≤ r := by omega
    rw [initLoop_ge methodKey maxRetries oracle r hge]
  | succ n ih =>
    intro r h
    by_cases hge : maxRetries ≤ r
    · rw [initLoop_ge methodKey maxRetries oracle r hge]
    · rw [initLoop_retry methodKey maxRetries oracle r hge (hall r)]
      exact ih (r + 1) (by omega)

/-- C10: for every configured `TransactionMaxRetries`, the `beginTx` loop of
`InitPayment` terminates: a `goto beginTx` retry happens only on a DB
lock-timeout from `SetPaymentTransaction` or a MySQL deadlock (error 1213) on
commit and strictly increments the retry counter; once the counter reaches
`maxRetries` the function returns `ErrDB`; the labelled block runs at most
`maxRetries + 1` times. -/
theorem initPayment_terminates (methodKey maxRetries : Nat)
    (oracle : Nat → TxAttempt) :
    (initLoop methodKey maxRetries oracle 0).2 ≤ maxRetries + 1
    ∧ (∀ a, initAttempt methodKey a = .retry →
        a.setTx = SetTxRes.lockTimeout ∨ a.commit = CommitRes.deadlock1213)
    ∧ (∀ r, maxRetries ≤ r →
        initLoop methodKey maxRetries oracle r = (.errDB, 1))
    ∧ ((∀ i, initAttempt methodKey (oracle i) = .retry) →
        (initLoop methodKey maxRetries oracle 0).1 = .errDB) := by
  refine ⟨?_, fun a h => initAttempt_retry methodKey a h,
    fun r h => initLoop_ge methodKey maxRetries oracle r h,
    fun hall => initLoop_all_retry methodKey maxRetries oracle hall
      (maxRetries - 0) 0 (by omega)⟩
  have := initLoop_count methodKey maxRetries oracle (maxRetries - 0) 0 (by omega)
  omega

/-- The attempt whose `SetPaymentTransaction` always hits a lock timeout. -/
def lockTimeoutAttempt : TxAttempt :=
  { beginOk := true, lookup := .notFound, insertOk := true,
    status := .notFound, setTx := .lockTimeout, commit := .ok }

/-- Witness for `initPayment_terminates`: with two allowed retries and a DB
that always times out on the payment-transaction lock, the loop stops after
three block executions and returns `ErrDB`. -/
theorem initPayment_terminates_witness :
    (initAttempt 0 lockTimeoutAttempt = StepOut.retry
      ∧ (2 : Nat) ≤ 2)
    ∧ ((initLoop 0 2 (fun _ => lockTimeoutAttempt) 0).2 ≤ 2 + 1
        ∧ (lockTimeoutAttempt.setTx = SetTxRes.lockTimeout
            ∨ lockTimeoutAttempt.commit = CommitRes.deadlock1213)
        ∧ initLoop 0 2 (fun _ => lockTimeoutAttempt) 2 = (.errDB, 1)
        ∧ (initLoop 0 2 (fun _ => lockTimeoutAttempt) 0).1 = .errDB) :=
  ⟨⟨by decide, by decide⟩,
    (initPayment_terminates 0 2 (fun _ => lockTimeoutAttempt)).1,
    (initPayment_terminates 0 2 (fun _ => lockTimeoutAttempt)).2.1
      lockTimeoutAttempt (by decide),
    (initPayment_terminates 0 2 (fun _ => lockTimeoutAttempt)).2.2.1 2
      (by decide),
    (initPayment_terminates 0 2 (fun _ => lockTimeoutAttempt)).2.2.2
      (fun _ => by decide)⟩

end Paymentd
